import Mathlib

/-!
Shallow embedding of the auo versioned configuration core:
schema types (src/config/types.ts), the migration engine
(src/config/migration.ts), the configuration store (src/config/manager.ts)
and the environment projector (setupEnvironment in src/cli/commands.ts).

Two levels are embedded side by side, mirroring how the TypeScript runs:

* a typed level for values the TypeScript type system already constrains
  (profiles, documents after a successful load, parameters), where a
  TS field of type `T | undefined` becomes `Option T` — reading an
  absent key and reading a key stored as `undefined` are indistinguishable
  through property access, so both are `none`;
* an untyped JSON level (`JsonValue`) for the raw parsed file contents
  that `loadConfig` / `validateV2Config` / `forceMigration` inspect
  dynamically with `typeof` / `Array.isArray` / the `in` operator.
  Functions that can throw a JS `TypeError` (property access on `null`,
  calling `.map` on a non-array) return `Option`, `none` standing for the
  raised exception, which the callers' `try`/`catch` blocks turn into the
  documented fallbacks.

Machine numbers: the only numeric operations performed by the source are
comparisons, index arithmetic on small arrays, and `+`/`-` by 1, all exact
in IEEE doubles for the magnitudes a config file can reach, so JS numbers
are embedded as `Rat` (at the JSON level, where fractional values can
really occur in a parsed file) and as `Int` (at the typed level).
-/

namespace Auo

/-- Embedding of the `ConfigEnvironment` interface: three optional string
fields; `none` models a field that is absent or stored as `undefined`
(indistinguishable through JS property reads). -/
structure ConfigEnvironment where
  ANTHROPIC_BASE_URL : Option String
  ANTHROPIC_AUTH_TOKEN : Option String
  ANTHROPIC_MODEL : Option String
deriving DecidableEq, Repr

/-- Embedding of `ConfigItemV1`: flat string fields, empty string meaning
"unset". -/
structure ConfigItemV1 where
  name : String
  baseUrl : String
  authToken : String
  description : String
deriving DecidableEq, Repr

/-- Embedding of `ConfigItemV2`: name, description and an environment map. -/
structure ConfigItemV2 where
  name : String
  description : String
  env : ConfigEnvironment
deriving DecidableEq, Repr

/-- Embedding of `ConfigFileV1` (no version tag). -/
structure ConfigFileV1 where
  providers : List ConfigItemV1
  currentIndex : Int
deriving DecidableEq, Repr

/-- Embedding of `ConfigFileV2`; the literal tag `version: "v2"` of the
TypeScript interface is carried by which constructor of `ConfigFile` a
document sits under, see `ConfigFile`. -/
structure ConfigFileV2 where
  providers : List ConfigItemV2
  currentIndex : Int
deriving DecidableEq, Repr

/-- Embedding of the union `ConfigFile = ConfigFileV1 | ConfigFileV2`,
discriminated in the source by presence/value of the `version` field. -/
inductive ConfigFile where
  | v1 : ConfigFileV1 → ConfigFile
  | v2 : ConfigFileV2 → ConfigFile
deriving DecidableEq, Repr

/-- Embedding of `MigrationResult`. -/
structure MigrationResult where
  migrated : Bool
  fromVersion : Option String
  toVersion : String
deriving DecidableEq, Repr

/-- Value of the `version` field of a document as the source would read it:
a `ConfigFileV1` object has no such field (`undefined`), a `ConfigFileV2`
object carries the literal string tag. -/
def versionTag : ConfigFile → Option String
  | .v1 _ => none
  | .v2 _ => some "v2"

namespace ConfigMigration

/-- Embedding of the `isConfigFileV2` type guard from migration.ts:
`'version' in config && config.version === 'v2'`. -/
def isConfigFileV2 : ConfigFile → Bool
  | .v1 _ => false
  | .v2 _ => true

/-- Embedding of `ConfigMigration.needsMigration`. -/
def needsMigration (config : ConfigFile) : Bool :=
  !(isConfigFileV2 config)

/-- Embedding of the arrow function inside `migrateV1ToV2` mapping one V1
provider to a V2 provider; `provider.baseUrl || undefined` keeps a
non-empty string and turns the empty string into `undefined`. -/
def migrateProvider (provider : ConfigItemV1) : ConfigItemV2 :=
  { name := provider.name
    description := provider.description
    env :=
      { ANTHROPIC_BASE_URL := if provider.baseUrl = "" then none else some provider.baseUrl
        ANTHROPIC_AUTH_TOKEN := if provider.authToken = "" then none else some provider.authToken
        ANTHROPIC_MODEL := none } }

/-- Embedding of `ConfigMigration.migrateV1ToV2`. -/
def migrateV1ToV2 (configV1 : ConfigFileV1) : ConfigFileV2 :=
  { providers := configV1.providers.map migrateProvider
    currentIndex := configV1.currentIndex }

/-- Embedding of `ConfigMigration.migrate`: a document already tagged v2
is returned unchanged (the source returns the very same object), a v1
document is migrated. -/
def migrate (config : ConfigFile) : ConfigFileV2 × MigrationResult :=
  match config with
  | .v2 c => (c, { migrated := false, fromVersion := none, toVersion := "v2" })
  | .v1 c =>
      (migrateV1ToV2 c,
       { migrated := true, fromVersion := some "v1", toVersion := "v2" })

/-- Embedding of `ConfigMigration.getDefaultV2Config`: single profile named
"default", auth token stored as the empty string, the other two keys
`undefined`. -/
def getDefaultV2Config : ConfigFileV2 :=
  { providers :=
      [{ name := "default"
         description := "Default configuration"
         env :=
           { ANTHROPIC_BASE_URL := none
             ANTHROPIC_AUTH_TOKEN := some ""
             ANTHROPIC_MODEL := none } }]
    currentIndex := 0 }

end ConfigMigration

/-- Untyped JSON value, the result of `JSON.parse` on the config file.
Numbers are embedded as `Rat` (JSON numbers are arbitrary decimals; the
source only ever compares them). Objects are field lists in insertion
order; `JSON.parse` output has pairwise distinct keys. There is no
`undefined` constructor: `JSON.stringify` drops object entries whose value
is `undefined`, and property reads do not distinguish an absent key from a
key stored as `undefined`, so runtime objects are represented with such
entries dropped. -/
inductive JsonValue where
  | null : JsonValue
  | bool : Bool → JsonValue
  | num : Rat → JsonValue
  | str : String → JsonValue
  | arr : List JsonValue → JsonValue
  | obj : List (String × JsonValue) → JsonValue
deriving Repr

/-- First binding of a key in an object's field list. -/
def jlookup (fields : List (String × JsonValue)) (key : String) : Option JsonValue :=
  match fields with
  | [] => none
  | (k, v) :: rest => if k = key then some v else jlookup rest key

/-- JS assignment `o.key = v`: overwrites the binding in place if the key
exists, otherwise appends it. -/
def jset (fields : List (String × JsonValue)) (key : String) (v : JsonValue) :
    List (String × JsonValue) :=
  match fields with
  | [] => [(key, v)]
  | (k, w) :: rest => if k = key then (k, v) :: rest else (k, w) :: jset rest key v

/-- JS property read `o.key` on a value that is not `null`: objects look the
key up, every other non-null value (arrays included, for the string keys
used here) yields `undefined`, embedded as `none`. Reads on `null` throw
and are handled by the callers below. -/
def jget (v : JsonValue) (key : String) : Option JsonValue :=
  match v with
  | .obj fields => jlookup fields key
  | _ => none

/-- JS truthiness of a value. -/
def jsTruthy : JsonValue → Bool
  | .null => false
  | .bool b => b
  | .num q => !(q == 0)
  | .str s => !(s == "")
  | .arr _ => true
  | .obj _ => true

namespace Js

/-- Embedding of the `isConfigFileV2` guard applied to a raw parsed value:
`'version' in config && config.version === 'v2'`. The `in` operator throws
a `TypeError` on `null` and on primitives (`none`); on an array the key is
missing, on an object it is looked up and compared strictly to the string
"v2". -/
def isConfigFileV2 (config : JsonValue) : Option Bool :=
  match config with
  | .obj fields =>
      some (match jlookup fields "version" with
            | some (.str s) => s == "v2"
            | _ => false)
  | .arr _ => some false
  | _ => none

/-- Object entry for a field written with a possibly-undefined value:
an `undefined` value leaves no entry (see `JsonValue`). -/
def optEntry (key : String) : Option JsonValue → List (String × JsonValue)
  | some v => [(key, v)]
  | none => []

/-- Embedding of the provider map inside `migrateV1ToV2` run on a raw array
element: property access on `null` throws (`none`); otherwise the V2
provider object is built, `baseUrl || undefined` and `authToken ||
undefined` keeping only truthy values and `ANTHROPIC_MODEL` always being
`undefined`. -/
def migrateProvider (provider : JsonValue) : Option JsonValue :=
  match provider with
  | .null => none
  | _ =>
      some (.obj
        (optEntry "name" (jget provider "name") ++
         optEntry "description" (jget provider "description") ++
         [("env", .obj
            ((match jget provider "baseUrl" with
              | some v => if jsTruthy v then [("ANTHROPIC_BASE_URL", v)] else []
              | none => []) ++
             (match jget provider "authToken" with
              | some v => if jsTruthy v then [("ANTHROPIC_AUTH_TOKEN", v)] else []
              | none => [])))]))

/-- Embedding of `migrateV1ToV2` run on a raw parsed document:
`configV1.providers.map(...)` throws unless `providers` is an array
(`none`), exceptions from the element map propagate, and the result object
is `{version: 'v2', providers, currentIndex}` with `currentIndex` copied
from the input. -/
def migrateV1ToV2 (raw : JsonValue) : Option JsonValue :=
  match raw with
  | .null => none
  | _ =>
      match jget raw "providers" with
      | some (.arr providers) =>
          match providers.mapM migrateProvider with
          | some migrated =>
              some (.obj
                ([("version", .str "v2"), ("providers", .arr migrated)] ++
                 optEntry "currentIndex" (jget raw "currentIndex")))
          | none => none
      | _ => none

/-- The check `!(!provider.name || typeof provider.name !== 'string')`:
the read value must be a truthy string, i.e. a non-empty string. -/
def isTruthyStringVal : Option JsonValue → Bool
  | some (.str s) => !(s == "")
  | _ => false

/-- The check `typeof v === 'string'` on a read value. -/
def isStringVal : Option JsonValue → Bool
  | some (.str _) => true
  | _ => false

/-- The check `v !== undefined → typeof v === 'string'` on a read value of
one recognized env key. -/
def isOptionalStringVal : Option JsonValue → Bool
  | none => true
  | some (.str _) => true
  | some _ => false

/-- The check `!(!provider.env || typeof provider.env !== 'object')`
followed by the three per-key checks: the env value must be truthy and of
JS type object — a JSON object, or an array, whose destructured keys are
all `undefined` and pass vacuously (`null` is falsy and fails). -/
def validateEnvContainer (v : Option JsonValue) : Bool :=
  match v with
  | some (.obj envFields) =>
      isOptionalStringVal (jlookup envFields "ANTHROPIC_BASE_URL") &&
      isOptionalStringVal (jlookup envFields "ANTHROPIC_AUTH_TOKEN") &&
      isOptionalStringVal (jlookup envFields "ANTHROPIC_MODEL")
  | some (.arr _) => true
  | _ => false

/-- Single provider check inside `validateV2Config`: property reads on a
`null` element throw (`none`); otherwise the provider must have a truthy
string `name`, a string `description` and a truthy `env` of `typeof
'object'` whose three recognized keys, if present, are strings. -/
def validateProvider (provider : JsonValue) : Option Bool :=
  match provider with
  | .null => none
  | _ =>
      some
        (isTruthyStringVal (jget provider "name") &&
         isStringVal (jget provider "description") &&
         validateEnvContainer (jget provider "env"))

/-- Loop over the providers of `validateV2Config`: an exception from any
element propagates, a failed check returns `false` early. -/
def validateProviders : List JsonValue → Option Bool
  | [] => some true
  | p :: rest =>
      match validateProvider p with
      | none => none
      | some false => some false
      | some true => validateProviders rest

/-- Embedding of `ConfigMigration.validateV2Config` on the raw parsed
value it really receives: the checks of the source in order (version tag,
providers a non-empty array, `typeof currentIndex === 'number'` within
`[0, providers.length)`, then every provider), with the surrounding
`try`/`catch` turning any thrown `TypeError` into `false`. -/
def validateV2Config (config : JsonValue) : Bool :=
  let checked : Option Bool :=
    match config with
    | .null => none
    | .obj fields =>
        match jlookup fields "version" with
        | some (.str s) =>
            if s == "v2" then
              match jlookup fields "providers" with
              | some (.arr providers) =>
                  if providers.isEmpty then some false
                  else
                    match jlookup fields "currentIndex" with
                    | some (.num q) =>
                        if q < 0 ∨ q ≥ (providers.length : Rat) then some false
                        else validateProviders providers
                    | _ => some false
              | _ => some false
            else some false
        | _ => some false
    | _ => some false
  match checked with
  | some b => b
  | none => false

end Js

/-- Serialization of a typed environment map, as `JSON.stringify` writes it:
entries whose value is `undefined` are dropped, the others appear in the
literal's field order. -/
def ConfigEnvironment.toJson (e : ConfigEnvironment) : JsonValue :=
  .obj (Js.optEntry "ANTHROPIC_BASE_URL" (e.ANTHROPIC_BASE_URL.map .str) ++
        Js.optEntry "ANTHROPIC_AUTH_TOKEN" (e.ANTHROPIC_AUTH_TOKEN.map .str) ++
        Js.optEntry "ANTHROPIC_MODEL" (e.ANTHROPIC_MODEL.map .str))

/-- Serialization of a typed V2 profile. -/
def ConfigItemV2.toJson (p : ConfigItemV2) : JsonValue :=
  .obj [("name", .str p.name), ("description", .str p.description),
        ("env", p.env.toJson)]

/-- Serialization of a typed V2 document, with its literal version tag. -/
def ConfigFileV2.toJson (c : ConfigFileV2) : JsonValue :=
  .obj [("version", .str "v2"),
        ("providers", .arr (c.providers.map ConfigItemV2.toJson)),
        ("currentIndex", .num (c.currentIndex : Rat))]

/-- State of the configuration file on disk: missing, present but not valid
JSON, or present with parsed contents. -/
inductive FileData where
  | absent : FileData
  | unparseable : FileData
  | json : JsonValue → FileData
deriving Repr

/-- Embedding of JS `String.prototype.trim` (computable down to characters,
unlike the bundled `String.trim`): drop whitespace from both ends. -/
def jsTrim (s : String) : String :=
  ⟨((s.data.dropWhile Char.isWhitespace).reverse.dropWhile Char.isWhitespace).reverse⟩

namespace ConfigManager

/-- Embedding of `ConfigManager.getDefaultConfig`. -/
def getDefaultConfig : ConfigFileV2 :=
  ConfigMigration.getDefaultV2Config

/-- Default document as written to / returned from the untyped level. -/
def defaultConfigJson : JsonValue :=
  ConfigFileV2.toJson getDefaultConfig

/-- Clamp step at the end of `loadConfig`'s validated branch:
`rawConfig.currentIndex = 0` when it is `< 0` or `≥ providers.length`.
Only reached on documents that passed `validateV2Config`, whose shape makes
the fallback match arms (which leave the document unchanged, as the JS
comparisons on a non-number are false) unreachable. -/
def clampCurrentIndex (raw : JsonValue) : JsonValue :=
  match raw with
  | .obj fields =>
      match jlookup fields "providers", jlookup fields "currentIndex" with
      | some (.arr providers), some (.num q) =>
          if q < 0 ∨ q ≥ (providers.length : Rat) then
            .obj (jset fields "currentIndex" (.num 0))
          else raw
      | _, _ => raw
  | _ => raw

/-- Embedding of `ConfigManager.loadConfig`, with the file state threaded
explicitly and `writeOk` telling whether the underlying
`fs.writeFileSync` of a triggered save succeeds. Any exception inside the
body (a `TypeError` from `needsMigration`/`migrateV1ToV2` on malformed
data, or a failing save of the freshly migrated document) is caught by the
source's surrounding `try`/`catch`, which falls back to the default
document and leaves the file untouched. -/
def loadConfig (fs : FileData) (writeOk : Bool) : JsonValue × FileData :=
  match fs with
  | .absent => (defaultConfigJson, fs)
  | .unparseable => (defaultConfigJson, fs)
  | .json raw =>
      match Js.isConfigFileV2 raw with
      | none => (defaultConfigJson, fs)
      | some true =>
          if Js.validateV2Config raw then (clampCurrentIndex raw, fs)
          else (defaultConfigJson, fs)
      | some false =>
          match Js.migrateV1ToV2 raw with
          | none => (defaultConfigJson, fs)
          | some migrated =>
              if writeOk then (migrated, .json migrated)
              else (defaultConfigJson, fs)

/-- File effect of `ConfigManager.getCurrentConfig`: its only file
operation is one `loadConfig`; it never saves. -/
def getCurrentConfigFileEffect (fs : FileData) (writeOk : Bool) : FileData :=
  (loadConfig fs writeOk).2

/-- File effect of `ConfigManager.getAllConfigs`: one `loadConfig`, no save. -/
def getAllConfigsFileEffect (fs : FileData) (writeOk : Bool) : FileData :=
  (loadConfig fs writeOk).2

/-- File effect of `ConfigManager.getConfig`: one `loadConfig`, no save. -/
def getConfigFileEffect (fs : FileData) (writeOk : Bool) : FileData :=
  (loadConfig fs writeOk).2

/-- File effect of `ConfigManager.hasConfig`: one `loadConfig`, no save. -/
def hasConfigFileEffect (fs : FileData) (writeOk : Bool) : FileData :=
  (loadConfig fs writeOk).2

/-- Embedding of `ConfigManager.getCurrentConfig` on the loaded document:
the profile at `currentIndex` when in bounds, else the first profile, else
the compiled-in default profile (the last fallback only matters for an
empty collection; the source would throw if even the default document had
no first provider, which it provably has). -/
def getCurrentConfig (config : ConfigFileV2) : ConfigItemV2 :=
  match (if 0 ≤ config.currentIndex ∧
            config.currentIndex < (config.providers.length : Int)
         then config.providers[config.currentIndex.toNat]?
         else none) with
  | some current => current
  | none =>
      match config.providers.head? with
      | some first => first
      | none =>
          match getDefaultConfig.providers.head? with
          | some d => d
          | none => { name := "", description := "", env := ⟨none, none, none⟩ }

/-- Embedding of `ConfigManager.switchToIndex` on the loaded document: out
of bounds gives the not-found signal `null` without saving; otherwise the
index is set and saved — a failing save throws out of the method (there is
no `try`/`catch` here), else the now-current profile is returned
(`config.providers[index] || null`). -/
def switchToIndex (config : ConfigFileV2) (index : Int) (writeOk : Bool) :
    Except String (Option ConfigItemV2) :=
  if index < 0 ∨ (config.providers.length : Int) ≤ index then .ok none
  else if writeOk then .ok config.providers[index.toNat]?
  else .error "Failed to save configuration file"

/-- Embedding of the `AddConfigParams` union, discriminated in the source
by presence of an `env` field. -/
inductive AddConfigParams where
  | v1 (name baseUrl authToken : String) (description : Option String)
  | v2 (name : String) (description : Option String) (env : ConfigEnvironment)
deriving DecidableEq, Repr

/-- The shared `name` field of either parameter form. -/
def AddConfigParams.name : AddConfigParams → String
  | .v1 n _ _ _ => n
  | .v2 n _ _ => n

/-- Embedding of the `v?.trim() || undefined` idiom: an absent string or
one that trims to empty becomes `undefined`. -/
def trimOrUndefined : Option String → Option String
  | none => none
  | some s => if jsTrim s = "" then none else some (jsTrim s)

/-- Embedding of `ConfigManager.addConfig` on the loaded document.
Rejections in source order: empty/whitespace-only name, a provider whose
stored name strictly equals the (untrimmed) requested name, an
empty/whitespace-only auth token. On acceptance the new provider is built
with all string fields trimmed and appended; the save failure is caught by
the method's `try`/`catch` and reported as `false`. The second component
is the document persisted to disk, `none` when nothing was persisted. -/
def addConfig (config : ConfigFileV2) (params : AddConfigParams) (writeOk : Bool) :
    Bool × Option ConfigFileV2 :=
  if jsTrim params.name = "" then (false, none)
  else if config.providers.any (fun cfg => cfg.name == params.name) then (false, none)
  else
    match params with
    | .v2 _ description env =>
        match env.ANTHROPIC_AUTH_TOKEN with
        | none => (false, none)
        | some token =>
            if jsTrim token = "" then (false, none)
            else
              let newProvider : ConfigItemV2 :=
                { name := jsTrim params.name
                  description := jsTrim (description.getD "")
                  env :=
                    { ANTHROPIC_BASE_URL := trimOrUndefined env.ANTHROPIC_BASE_URL
                      ANTHROPIC_AUTH_TOKEN := some (jsTrim token)
                      ANTHROPIC_MODEL := trimOrUndefined env.ANTHROPIC_MODEL } }
              if writeOk then
                (true, some { config with providers := config.providers ++ [newProvider] })
              else (false, none)
    | .v1 _ baseUrl authToken description =>
        if jsTrim authToken = "" then (false, none)
        else
          let newProvider : ConfigItemV2 :=
            { name := jsTrim params.name
              description := jsTrim (description.getD "")
              env :=
                { ANTHROPIC_BASE_URL := trimOrUndefined (some baseUrl)
                  ANTHROPIC_AUTH_TOKEN := some (jsTrim authToken)
                  ANTHROPIC_MODEL := none } }
          if writeOk then
            (true, some { config with providers := config.providers ++ [newProvider] })
          else (false, none)

/-- Index-shift arithmetic shared by `deleteConfig` and
`removeConfigByIndex`, applied after the splice: clamp to the new last
index when past the end, else decrement when the removed index lay before
the pointer. `newLength` is the provider count after removal. -/
def adjustCurrentIndex (currentIndex : Int) (index : Nat) (newLength : Nat) : Int :=
  if (newLength : Int) ≤ currentIndex then (newLength : Int) - 1
  else if (index : Int) < currentIndex then currentIndex - 1
  else currentIndex

/-- Embedding of `ConfigManager.deleteConfig` on the loaded document:
reject an unknown name and removal of the last remaining profile, else
splice the entry out, adjust the pointer and save (a failing save is
caught and reported as `false`). -/
def deleteConfig (config : ConfigFileV2) (name : String) (writeOk : Bool) :
    Bool × Option ConfigFileV2 :=
  match config.providers.findIdx? (fun cfg => cfg.name == name) with
  | none => (false, none)
  | some index =>
      if config.providers.length ≤ 1 then (false, none)
      else
        let providers' := config.providers.eraseIdx index
        let newDoc : ConfigFileV2 :=
          { providers := providers'
            currentIndex := adjustCurrentIndex config.currentIndex index providers'.length }
        if writeOk then (true, some newDoc) else (false, none)

/-- Embedding of `ConfigManager.removeConfigByIndex` on the loaded
document: reject an out-of-bounds index and removal of the last remaining
profile; the source's re-read of `providers[index]` (its `!deletedConfig`
guard) is kept, though it always succeeds in bounds. -/
def removeConfigByIndex (config : ConfigFileV2) (index : Int) (writeOk : Bool) :
    Bool × Option ConfigFileV2 :=
  if index < 0 ∨ (config.providers.length : Int) ≤ index then (false, none)
  else if config.providers.length ≤ 1 then (false, none)
  else
    match config.providers[index.toNat]? with
    | none => (false, none)
    | some _ =>
        let providers' := config.providers.eraseIdx index.toNat
        let newDoc : ConfigFileV2 :=
          { providers := providers'
            currentIndex := adjustCurrentIndex config.currentIndex index.toNat providers'.length }
        if writeOk then (true, some newDoc) else (false, none)

/-- Environment part of a `Partial<ConfigItemV2>` update: for each key the
outer `Option` records whether the key is present in the update object
(the source tests this with the `in` operator) and the inner `Option` its
value there (`undefined` or a string). -/
structure EnvPatch where
  ANTHROPIC_BASE_URL : Option (Option String)
  ANTHROPIC_AUTH_TOKEN : Option (Option String)
  ANTHROPIC_MODEL : Option (Option String)
deriving DecidableEq, Repr

/-- Embedding of a `Partial<ConfigItemV2>` update object. For `name` and
`description` the source only distinguishes by truthiness resp. by
`!== undefined`, so a key present with value `undefined` behaves exactly
like an absent key and both are `none`. -/
structure ConfigItemPatch where
  name : Option String
  description : Option String
  env : Option EnvPatch
deriving DecidableEq, Repr

/-- Embedding of the `updates.name || existingConfig.name` idiom. -/
def strOr (v : Option String) (d : String) : String :=
  match v with
  | some s => if s == "" then d else s
  | none => d

/-- Merge of one env key in `updateConfig`:
`updates.env && 'KEY' in updates.env ? updates.env.KEY : existing.env.KEY`.
The first argument is the key's entry in the patch when the patch has an
`env` object containing the key. -/
def mergeEnvKey (patched : Option (Option String)) (stored : Option String) :
    Option String :=
  match patched with
  | some v => v
  | none => stored

/-- Embedding of `ConfigManager.updateConfig` on the loaded document:
reject an unknown name and a rename collision with a different existing
profile, else replace the entry at the found index with the key-by-key
merge and save (a failing save is caught and reported as `false`). -/
def updateConfig (config : ConfigFileV2) (name : String) (updates : ConfigItemPatch)
    (writeOk : Bool) : Bool × Option ConfigFileV2 :=
  match config.providers.findIdx? (fun cfg => cfg.name == name) with
  | none => (false, none)
  | some index =>
      let renameConflict :=
        match updates.name with
        | some newName =>
            if newName == "" ∨ newName == name then false
            else config.providers.any (fun cfg => cfg.name == newName)
        | none => false
      if renameConflict then (false, none)
      else
        match config.providers[index]? with
        | none => (false, none)
        | some existingConfig =>
            let merged : ConfigItemV2 :=
              { name := strOr updates.name existingConfig.name
                description := updates.description.getD existingConfig.description
                env :=
                  { ANTHROPIC_BASE_URL :=
                      mergeEnvKey (updates.env.bind (·.ANTHROPIC_BASE_URL))
                        existingConfig.env.ANTHROPIC_BASE_URL
                    ANTHROPIC_AUTH_TOKEN :=
                      mergeEnvKey (updates.env.bind (·.ANTHROPIC_AUTH_TOKEN))
                        existingConfig.env.ANTHROPIC_AUTH_TOKEN
                    ANTHROPIC_MODEL :=
                      mergeEnvKey (updates.env.bind (·.ANTHROPIC_MODEL))
                        existingConfig.env.ANTHROPIC_MODEL } }
            if writeOk then
              (true, some { config with providers := config.providers.set index merged })
            else (false, none)

/-- Embedding of `ConfigManager.getConfigEnvironment` for an explicitly
passed profile: the spread `{...targetConfig.env}` is a value copy. -/
def getConfigEnvironment (config : ConfigItemV2) : ConfigEnvironment :=
  config.env

/-- Embedding of `ConfigManager.forceMigration` over the file state: no
file creates and saves the default with a synthetic "none to v2" result;
otherwise the raw contents are migrated when needed and saved. The `catch`
here logs and rethrows, so parse errors, `TypeError`s from malformed data
and save failures all surface as thrown errors. -/
def forceMigration (fs : FileData) (writeOk : Bool) :
    Except String (MigrationResult × FileData) :=
  match fs with
  | .absent =>
      if writeOk then
        .ok ({ migrated := true, fromVersion := some "none", toVersion := "v2" },
             .json defaultConfigJson)
      else .error "Failed to save configuration file"
  | .unparseable => .error "JSON parse error"
  | .json raw =>
      match Js.isConfigFileV2 raw with
      | none => .error "TypeError"
      | some true =>
          .ok ({ migrated := false, fromVersion := none, toVersion := "v2" }, fs)
      | some false =>
          match Js.migrateV1ToV2 raw with
          | none => .error "TypeError"
          | some migrated =>
              if writeOk then
                .ok ({ migrated := true, fromVersion := some "v1", toVersion := "v2" },
                     .json migrated)
              else .error "Failed to save configuration file"

end ConfigManager

/-- Overlay produced by the environment projector; `none` means the key is
not set in the overlay. -/
structure EnvironmentVariables where
  ANTHROPIC_BASE_URL : Option String
  ANTHROPIC_AUTH_TOKEN : Option String
  ANTHROPIC_MODEL : Option String
deriving DecidableEq, Repr

/-- Runtime shape of the profile handed to `setupEnvironment`: typed as
`ConfigItemV2` in the source but defensively checked for a missing `env`
container. -/
structure ConfigItemV2Raw where
  name : String
  description : String
  env : Option ConfigEnvironment
deriving DecidableEq, Repr

/-- Embedding of the `if (config.env.KEY) env.KEY = config.env.KEY` steps
of `setupEnvironment`: a key is copied into the overlay only when its
stored value is truthy, i.e. present and non-empty. -/
def truthyProject : Option String → Option String
  | some s => if s == "" then none else some s
  | none => none

/-- Embedding of `setupEnvironment` from src/cli/commands.ts: an absent
`env` container yields the empty overlay; otherwise each recognized key is
copied iff its stored value is truthy. -/
def setupEnvironment (config : ConfigItemV2Raw) : EnvironmentVariables :=
  match config.env with
  | none => { ANTHROPIC_BASE_URL := none, ANTHROPIC_AUTH_TOKEN := none
              ANTHROPIC_MODEL := none }
  | some e =>
      { ANTHROPIC_BASE_URL := truthyProject e.ANTHROPIC_BASE_URL
        ANTHROPIC_AUTH_TOKEN := truthyProject e.ANTHROPIC_AUTH_TOKEN
        ANTHROPIC_MODEL := truthyProject e.ANTHROPIC_MODEL }

/-- Spec-side reading (from the spec's words, for comparison with the
source validator): a read value that, if present, is a string. -/
def StringIfPresent (v : Option JsonValue) : Prop :=
  ∀ x, v = some x → ∃ s, x = .str s

/-- Spec-side reading of one profile of a valid V2 document: an object
with a non-empty string name, a string description (possibly empty), and
an env value of JS object type — a JSON object whose three recognized
keys, if present, are strings, or an array (which has none of the keys). -/
def ProviderOk (p : JsonValue) : Prop :=
  ∃ fields, p = .obj fields ∧
    (∃ s, jlookup fields "name" = some (.str s) ∧ s ≠ "") ∧
    (∃ d, jlookup fields "description" = some (.str d)) ∧
    ((∃ envFields, jlookup fields "env" = some (.obj envFields) ∧
        StringIfPresent (jlookup envFields "ANTHROPIC_BASE_URL") ∧
        StringIfPresent (jlookup envFields "ANTHROPIC_AUTH_TOKEN") ∧
        StringIfPresent (jlookup envFields "ANTHROPIC_MODEL")) ∨
     (∃ elems, jlookup fields "env" = some (.arr elems)))

/-- Spec-side reading of the whole structural condition of
`validateV2Config`: version tag "v2", a non-empty providers array, a
numeric `currentIndex` within `[0, providers.length)` (the number need not
be an integer — see the counterexample), and every provider well-shaped. -/
def ValidV2Shape (config : JsonValue) : Prop :=
  ∃ fields providers q,
    config = .obj fields ∧
    jlookup fields "version" = some (.str "v2") ∧
    jlookup fields "providers" = some (.arr providers) ∧
    providers ≠ [] ∧
    jlookup fields "currentIndex" = some (.num q) ∧
    0 ≤ q ∧ q < (providers.length : Rat) ∧
    ∀ p ∈ providers, ProviderOk p

/-- A v2-tagged document with one well-shaped provider and the fractional
`currentIndex` 1/2 — valid JSON a file can contain. -/
def halfIndexDoc : JsonValue :=
  .obj [("version", .str "v2"),
        ("providers",
         .arr [.obj [("name", .str "default"), ("description", .str ""),
                     ("env", .obj [])]]),
        ("currentIndex", .num (mkRat 1 2))]

/-! Concrete documents used by the claim theorems. -/

/-- The V1-shaped file of the out-of-range scenario:
one provider, `currentIndex: 999`. -/
def v1File999 : JsonValue :=
  .obj [("providers",
         .arr [.obj [("name", .str "test"), ("baseUrl", .str ""),
                     ("authToken", .str "token"), ("description", .str "test")]]),
        ("currentIndex", .num 999)]

/-- What migrating `v1File999` produces: the empty `baseUrl` is dropped,
the auth token kept, and `currentIndex` copied verbatim. -/
def migrated999 : JsonValue :=
  .obj [("version", .str "v2"),
        ("providers",
         .arr [.obj [("name", .str "test"), ("description", .str "test"),
                     ("env", .obj [("ANTHROPIC_AUTH_TOKEN", .str "token")])]]),
        ("currentIndex", .num 999)]

/-- A document with a single stored profile named "x". -/
def singleXDoc : ConfigFileV2 :=
  { providers := [{ name := "x", description := "",
                    env := ⟨none, some "t", none⟩ }]
    currentIndex := 0 }

/-- The two-profile document of the removal scenario. -/
def twoProfileDoc : ConfigFileV2 :=
  { providers :=
      [{ name := "default", description := "", env := ⟨none, some "", none⟩ },
       { name := "second", description := "", env := ⟨none, some "t", none⟩ }]
    currentIndex := 1 }

/-- A one-profile document whose profile "x" has all three env keys set. -/
def xProfileDoc : ConfigFileV2 :=
  { providers := [{ name := "x", description := "",
                    env := ⟨some "http://u", some "t", some "m"⟩ }]
    currentIndex := 0 }

/-- The patch of the clearing scenario: an env object whose only present
key is `ANTHROPIC_BASE_URL`, present with value `undefined`. -/
def clearBaseUrlPatch : ConfigManager.ConfigItemPatch :=
  { name := none, description := none
    env := some { ANTHROPIC_BASE_URL := some none
                  ANTHROPIC_AUTH_TOKEN := none
                  ANTHROPIC_MODEL := none } }

/-- What updating "x" with `clearBaseUrlPatch` leaves in the store. -/
def clearedDoc : ConfigFileV2 :=
  { providers := [{ name := "x", description := "",
                    env := ⟨none, some "t", some "m"⟩ }]
    currentIndex := 0 }

/-- C1, code evaluated at the failing input: loading the V1-shaped file
with `currentIndex: 999` succeeds and migrates, but both the document
returned and the document persisted to disk keep `currentIndex` at 999 —
it is not reset to 0. The clamp of `loadConfig` sits only in the
no-migration branch, so the migration path persists the out-of-range
index (and the persisted file then fails `validateV2Config` on the next
load, discarding the user's data for the default document). -/
theorem c1_load_migration_keeps_invalid_index :
    ConfigManager.loadConfig (.json v1File999) true = (migrated999, .json migrated999) ∧
    jget migrated999 "currentIndex" = some (.num 999) ∧
    (999 : Rat) ≠ 0 :=
  ⟨rfl, rfl, by decide⟩

/-- C4 counterexample: the claim says a stored empty string is a present
value and is projected, but `setupEnvironment` tests JS truthiness, so the
default profile — whose `ANTHROPIC_AUTH_TOKEN` is stored as the present
value `""` — projects to the empty overlay: the key does not appear. -/
theorem c4_empty_string_not_projected :
    setupEnvironment
        { name := "default", description := "Default configuration",
          env := some ⟨none, some "", none⟩ } =
      ⟨none, none, none⟩ ∧
    (some (⟨none, some "", none⟩ : ConfigEnvironment)).isSome = true :=
  ⟨rfl, rfl⟩

/-- Value-level description of one projection step: the overlay holds a
key exactly when the stored value is present and non-empty. -/
theorem truthyProject_eq_some (v : Option String) (s : String) :
    truthyProject v = some s ↔ v = some s ∧ s ≠ "" := by
  cases v with
  | none => simp [truthyProject]
  | some a =>
    by_cases ha : a = ""
    · subst ha
      simp [truthyProject]
      intro h
      exact h.symm
    · simp only [truthyProject, beq_iff_eq, if_neg ha]
      constructor
      · intro h
        injection h with h1
        subst h1
        exact ⟨rfl, ha⟩
      · intro h
        exact h.1

/-- C4 amended: the overlay contains exactly the recognized keys whose
stored value is present AND non-empty (JS-truthy); a key that is absent,
stored as undefined, or stored as the empty string does not appear; a
profile whose env container is missing yields the empty overlay without
raising. -/
theorem c4_projection_truthy (config : ConfigItemV2Raw) :
    (config.env = none → setupEnvironment config = ⟨none, none, none⟩) ∧
    (∀ e, config.env = some e →
      (∀ s, (setupEnvironment config).ANTHROPIC_BASE_URL = some s ↔
         e.ANTHROPIC_BASE_URL = some s ∧ s ≠ "") ∧
      (∀ s, (setupEnvironment config).ANTHROPIC_AUTH_TOKEN = some s ↔
         e.ANTHROPIC_AUTH_TOKEN = some s ∧ s ≠ "") ∧
      (∀ s, (setupEnvironment config).ANTHROPIC_MODEL = some s ↔
         e.ANTHROPIC_MODEL = some s ∧ s ≠ "")) := by
  constructor
  · intro h
    simp [setupEnvironment, h]
  · intro e he
    refine ⟨fun s => ?_, fun s => ?_, fun s => ?_⟩ <;>
      simp [setupEnvironment, he, truthyProject_eq_some]

/-- Witness for C4 amended: a missing env container gives the empty
overlay, and a present non-empty base URL is projected. -/
theorem c4_witness :
    setupEnvironment { name := "d", description := "", env := none } =
      ⟨none, none, none⟩ ∧
    (setupEnvironment
        { name := "d", description := "", env := some ⟨some "u", some "", none⟩ }).ANTHROPIC_BASE_URL =
      some "u" := by
  constructor
  · exact (c4_projection_truthy _).1 rfl
  · exact (((c4_projection_truthy _).2 _ rfl).1 "u").mpr ⟨rfl, by decide⟩

/-- C6: a document needs no migration exactly when it carries the literal
v2 tag; on a v2 document `migrate` returns the input itself with a
`migrated:false` result, and migrating the returned document again gives
the same answer (idempotence). -/
theorem c6_migrate_identity_idempotent :
    (∀ config : ConfigFile,
       ConfigMigration.needsMigration config = false ↔ versionTag config = some "v2") ∧
    (∀ doc : ConfigFileV2,
       ConfigMigration.migrate (.v2 doc) =
         (doc, { migrated := false, fromVersion := none, toVersion := "v2" })) ∧
    (∀ doc : ConfigFileV2,
       ConfigMigration.migrate (.v2 (ConfigMigration.migrate (.v2 doc)).1) =
           ConfigMigration.migrate (.v2 doc) ∧
         (ConfigMigration.migrate (.v2 doc)).2.migrated = false) := by
  refine ⟨fun config => ?_, fun doc => rfl, fun doc => ⟨rfl, rfl⟩⟩
  cases config <;> simp [ConfigMigration.needsMigration, ConfigMigration.isConfigFileV2, versionTag]

/-- Witness for C6 at the default document. -/
theorem c6_witness :
    ConfigMigration.needsMigration (.v2 ConfigMigration.getDefaultV2Config) = false ∧
    ConfigMigration.migrate (.v2 ConfigMigration.getDefaultV2Config) =
      (ConfigMigration.getDefaultV2Config,
       { migrated := false, fromVersion := none, toVersion := "v2" }) :=
  ⟨(c6_migrate_identity_idempotent.1 _).mpr rfl,
   c6_migrate_identity_idempotent.2.1 _⟩

/-- C5, code evaluated at the failing input: on a document whose only
profile is named "x", `addConfig` with the name "x " (trailing space)
passes the duplicate check — which compares stored names against the
UNTRIMMED parameter — and then stores the trimmed name, leaving two
stored profiles both named "x": the name-uniqueness invariant is broken. -/
theorem c5_addConfig_untrimmed_duplicate :
    (ConfigManager.addConfig singleXDoc (.v1 "x " "" "t" none) true).1 = true ∧
    (ConfigManager.addConfig singleXDoc (.v1 "x " "" "t" none) true).2.map
        (fun d => d.providers.map (·.name)) =
      some ["x", "x"] :=
  ⟨rfl, rfl⟩

/-- C2: migration preserves the current index and the profile count and
order; per profile, name and description are copied verbatim, the base URL
and auth token move under `env` exactly when non-empty (absent for the
empty string), and `ANTHROPIC_MODEL` is always absent. -/
theorem c2_migrateV1ToV2_spec (d : ConfigFileV1) :
    (ConfigMigration.migrateV1ToV2 d).currentIndex = d.currentIndex ∧
    (ConfigMigration.migrateV1ToV2 d).providers.length = d.providers.length ∧
    ∀ (i : Nat) (p : ConfigItemV1), d.providers[i]? = some p →
      ∃ q : ConfigItemV2, (ConfigMigration.migrateV1ToV2 d).providers[i]? = some q ∧
        q.name = p.name ∧ q.description = p.description ∧
        q.env.ANTHROPIC_BASE_URL = (if p.baseUrl = "" then none else some p.baseUrl) ∧
        q.env.ANTHROPIC_AUTH_TOKEN = (if p.authToken = "" then none else some p.authToken) ∧
        q.env.ANTHROPIC_MODEL = none := by
  refine ⟨rfl, by simp [ConfigMigration.migrateV1ToV2], fun i p hp => ?_⟩
  refine ⟨ConfigMigration.migrateProvider p, ?_, rfl, rfl, rfl, rfl, rfl⟩
  simp [ConfigMigration.migrateV1ToV2, List.getElem?_map, hp]

/-- Witness for C2 on a one-profile document with a non-empty base URL and
an empty auth token. -/
theorem c2_witness :
    ∃ q, (ConfigMigration.migrateV1ToV2
        { providers := [{ name := "a", baseUrl := "http://u", authToken := "",
                          description := "d" }],
          currentIndex := 0 }).providers[0]? = some q ∧
      q.name = "a" ∧ q.description = "d" ∧
      q.env.ANTHROPIC_BASE_URL = (if ("http://u" : String) = "" then none else some "http://u") ∧
      q.env.ANTHROPIC_AUTH_TOKEN = (if ("" : String) = "" then none else some "") ∧
      q.env.ANTHROPIC_MODEL = none :=
  (c2_migrateV1ToV2_spec
      { providers := [{ name := "a", baseUrl := "http://u", authToken := "",
                        description := "d" }],
        currentIndex := 0 }).2.2 0
    { name := "a", baseUrl := "http://u", authToken := "", description := "d" } rfl

/-- C8: a successful in-bounds removal from a document with at least two
profiles — whether through `removeConfigByIndex i` or through
`deleteConfig` on a name that resolves to index `i` — erases exactly the
indexed entry (keeping the order of the rest) and moves the pointer by the
index-shift arithmetic: minus one when the removed index lies before it,
unchanged when after it, and when the removed index IS the pointer, the
pointer picks up the next remaining profile, or the new last index when
the last entry was removed. The final two conjuncts are the spec's
concrete scenario, exercised through both operations. -/
theorem c8_removeConfigByIndex_spec (config : ConfigFileV2) (i c : Nat)
    (hc : config.currentIndex = (c : Int))
    (hn : 2 ≤ config.providers.length)
    (hi : i < config.providers.length)
    (hcn : c < config.providers.length) :
    (∃ newDoc, ConfigManager.removeConfigByIndex config (i : Int) true = (true, some newDoc) ∧
      newDoc.providers = config.providers.eraseIdx i ∧
      (i < c → newDoc.currentIndex = (c : Int) - 1 ∧
        newDoc.providers[c - 1]? = config.providers[c]?) ∧
      (c < i → newDoc.currentIndex = (c : Int) ∧
        newDoc.providers[c]? = config.providers[c]?) ∧
      (i = c → i + 1 < config.providers.length →
        newDoc.currentIndex = (i : Int) ∧
        newDoc.providers[i]? = config.providers[i + 1]?) ∧
      (i = c → i + 1 = config.providers.length →
        newDoc.currentIndex = (config.providers.length : Int) - 2)) ∧
    (∀ name, config.providers.findIdx? (fun cfg => cfg.name == name) = some i →
      ∃ newDoc, ConfigManager.deleteConfig config name true = (true, some newDoc) ∧
      newDoc.providers = config.providers.eraseIdx i ∧
      (i < c → newDoc.currentIndex = (c : Int) - 1 ∧
        newDoc.providers[c - 1]? = config.providers[c]?) ∧
      (c < i → newDoc.currentIndex = (c : Int) ∧
        newDoc.providers[c]? = config.providers[c]?) ∧
      (i = c → i + 1 < config.providers.length →
        newDoc.currentIndex = (i : Int) ∧
        newDoc.providers[i]? = config.providers[i + 1]?) ∧
      (i = c → i + 1 = config.providers.length →
        newDoc.currentIndex = (config.providers.length : Int) - 2)) ∧
    (ConfigManager.removeConfigByIndex twoProfileDoc 1 true).2.map
        (fun d => (ConfigManager.getCurrentConfig d).name) = some "default" ∧
    (ConfigManager.deleteConfig twoProfileDoc "second" true).2.map
        (fun d => (ConfigManager.getCurrentConfig d).name) = some "default" := by
  have hg1 : ¬((i : Int) < 0 ∨ (config.providers.length : Int) ≤ (i : Int)) := by omega
  have hg2 : ¬(config.providers.length ≤ 1) := by omega
  have hlen : (config.providers.eraseIdx i).length = config.providers.length - 1 := by
    simp [List.length_eraseIdx, hi]
  have heval : ConfigManager.removeConfigByIndex config (i : Int) true =
      (true, some { providers := config.providers.eraseIdx i
                    currentIndex := ConfigManager.adjustCurrentIndex config.currentIndex i
                        (config.providers.eraseIdx i).length }) := by
    rw [ConfigManager.removeConfigByIndex, if_neg hg1, if_neg hg2, Int.toNat_natCast,
        List.getElem?_eq_getElem hi]
    rfl
  have hdel : ∀ name, config.providers.findIdx? (fun cfg => cfg.name == name) = some i →
      ConfigManager.deleteConfig config name true =
        (true, some { providers := config.providers.eraseIdx i
                      currentIndex := ConfigManager.adjustCurrentIndex config.currentIndex i
                          (config.providers.eraseIdx i).length }) := by
    intro name hfind
    simp only [ConfigManager.deleteConfig, hfind]
    rw [if_neg hg2]
    rfl
  have hprops :
      (config.providers.eraseIdx i : List ConfigItemV2) = config.providers.eraseIdx i ∧
      (i < c → ConfigManager.adjustCurrentIndex config.currentIndex i
          (config.providers.eraseIdx i).length = (c : Int) - 1 ∧
        (config.providers.eraseIdx i)[c - 1]? = config.providers[c]?) ∧
      (c < i → ConfigManager.adjustCurrentIndex config.currentIndex i
          (config.providers.eraseIdx i).length = (c : Int) ∧
        (config.providers.eraseIdx i)[c]? = config.providers[c]?) ∧
      (i = c → i + 1 < config.providers.length →
        ConfigManager.adjustCurrentIndex config.currentIndex i
          (config.providers.eraseIdx i).length = (i : Int) ∧
        (config.providers.eraseIdx i)[i]? = config.providers[i + 1]?) ∧
      (i = c → i + 1 = config.providers.length →
        ConfigManager.adjustCurrentIndex config.currentIndex i
          (config.providers.eraseIdx i).length =
          (config.providers.length : Int) - 2) := by
    refine ⟨rfl, fun hic => ⟨?_, ?_⟩, fun hci => ⟨?_, ?_⟩,
            fun hie hlt => ⟨?_, ?_⟩, fun hie hlast => ?_⟩
    · rw [ConfigManager.adjustCurrentIndex, hc, hlen]
      split
      · omega
      · rw [if_pos (by omega)]
    · rw [List.getElem?_eraseIdx, if_neg (by omega)]
      congr 1
      omega
    · rw [ConfigManager.adjustCurrentIndex, hc, hlen]
      split
      · omega
      · rw [if_neg (by omega)]
    · rw [List.getElem?_eraseIdx, if_pos (by omega)]
    · rw [ConfigManager.adjustCurrentIndex, hc, hlen]
      split
      · omega
      · rw [if_neg (by omega)]
        omega
    · rw [List.getElem?_eraseIdx, if_neg (by omega)]
    · rw [ConfigManager.adjustCurrentIndex, hc, hlen]
      split
      · omega
      · omega
  exact ⟨⟨_, heval, hprops.1, hprops.2.1, hprops.2.2.1, hprops.2.2.2.1, hprops.2.2.2.2⟩,
         fun name hfind => ⟨_, hdel name hfind, hprops.1, hprops.2.1, hprops.2.2.1,
           hprops.2.2.2.1, hprops.2.2.2.2⟩,
         rfl, rfl⟩

/-- Witness for C8 at the two-profile scenario document: removing index 1
while it is current, both by index and by the name "second" (which
resolves to index 1). -/
theorem c8_witness :
    (∃ newDoc,
      ConfigManager.removeConfigByIndex twoProfileDoc ((1 : Nat) : Int) true =
        (true, some newDoc) ∧
      newDoc.providers = twoProfileDoc.providers.eraseIdx 1 ∧
      (1 < 1 → newDoc.currentIndex = ((1 : Nat) : Int) - 1 ∧
        newDoc.providers[1 - 1]? = twoProfileDoc.providers[1]?) ∧
      (1 < 1 → newDoc.currentIndex = ((1 : Nat) : Int) ∧
        newDoc.providers[1]? = twoProfileDoc.providers[1]?) ∧
      ((1 : Nat) = 1 → 1 + 1 < twoProfileDoc.providers.length →
        newDoc.currentIndex = ((1 : Nat) : Int) ∧
        newDoc.providers[1]? = twoProfileDoc.providers[1 + 1]?) ∧
      ((1 : Nat) = 1 → 1 + 1 = twoProfileDoc.providers.length →
        newDoc.currentIndex = (twoProfileDoc.providers.length : Int) - 2)) ∧
    (∃ newDoc,
      ConfigManager.deleteConfig twoProfileDoc "second" true = (true, some newDoc) ∧
      newDoc.providers = twoProfileDoc.providers.eraseIdx 1 ∧
      (1 < 1 → newDoc.currentIndex = ((1 : Nat) : Int) - 1 ∧
        newDoc.providers[1 - 1]? = twoProfileDoc.providers[1]?) ∧
      (1 < 1 → newDoc.currentIndex = ((1 : Nat) : Int) ∧
        newDoc.providers[1]? = twoProfileDoc.providers[1]?) ∧
      ((1 : Nat) = 1 → 1 + 1 < twoProfileDoc.providers.length →
        newDoc.currentIndex = ((1 : Nat) : Int) ∧
        newDoc.providers[1]? = twoProfileDoc.providers[1 + 1]?) ∧
      ((1 : Nat) = 1 → 1 + 1 = twoProfileDoc.providers.length →
        newDoc.currentIndex = (twoProfileDoc.providers.length : Int) - 2)) ∧
    (ConfigManager.removeConfigByIndex twoProfileDoc 1 true).2.map
        (fun d => (ConfigManager.getCurrentConfig d).name) = some "default" ∧
    (ConfigManager.deleteConfig twoProfileDoc "second" true).2.map
        (fun d => (ConfigManager.getCurrentConfig d).name) = some "default" :=
  ⟨(c8_removeConfigByIndex_spec twoProfileDoc 1 1 rfl (by decide) (by decide) (by decide)).1,
   (c8_removeConfigByIndex_spec twoProfileDoc 1 1 rfl (by decide) (by decide)
      (by decide)).2.1 "second" rfl,
   (c8_removeConfigByIndex_spec twoProfileDoc 1 1 rfl (by decide) (by decide)
      (by decide)).2.2.1,
   (c8_removeConfigByIndex_spec twoProfileDoc 1 1 rfl (by decide) (by decide)
      (by decide)).2.2.2⟩

/-- Key-by-key merge characterization: the stored value is replaced
exactly when the patch's env object is present and contains the key. -/
theorem mergeEnvKey_match (env? : Option ConfigManager.EnvPatch)
    (f : ConfigManager.EnvPatch → Option (Option String)) (stored : Option String) :
    ConfigManager.mergeEnvKey (env?.bind f) stored =
      (match env? with
       | some e =>
           match f e with
           | some v => v
           | none => stored
       | none => stored) := by
  cases env? with
  | none => rfl
  | some e => cases h : f e <;> simp [ConfigManager.mergeEnvKey, Option.bind, h]

/-- C3: a successful `updateConfig` replaces exactly the profile at the
found index by the three-state merge — an env key present in the patch
(even with value undefined) overwrites or clears exactly that stored key,
an absent key leaves the stored value untouched, and name/description
overwrite only when provided — with every other profile and the current
pointer unchanged. -/
theorem c3_updateConfig_three_state (config : ConfigFileV2) (n : String)
    (updates : ConfigManager.ConfigItemPatch) (index : Nat) (config' : ConfigFileV2)
    (hfind : config.providers.findIdx? (fun cfg => cfg.name == n) = some index)
    (hres : ConfigManager.updateConfig config n updates true = (true, some config')) :
    ∃ existing merged : ConfigItemV2,
      config.providers[index]? = some existing ∧
      config'.providers[index]? = some merged ∧
      (∀ j : Nat, j ≠ index → config'.providers[j]? = config.providers[j]?) ∧
      config'.currentIndex = config.currentIndex ∧
      merged.env.ANTHROPIC_BASE_URL =
        (match updates.env with
         | some e =>
             match e.ANTHROPIC_BASE_URL with
             | some v => v
             | none => existing.env.ANTHROPIC_BASE_URL
         | none => existing.env.ANTHROPIC_BASE_URL) ∧
      merged.env.ANTHROPIC_AUTH_TOKEN =
        (match updates.env with
         | some e =>
             match e.ANTHROPIC_AUTH_TOKEN with
             | some v => v
             | none => existing.env.ANTHROPIC_AUTH_TOKEN
         | none => existing.env.ANTHROPIC_AUTH_TOKEN) ∧
      merged.env.ANTHROPIC_MODEL =
        (match updates.env with
         | some e =>
             match e.ANTHROPIC_MODEL with
             | some v => v
             | none => existing.env.ANTHROPIC_MODEL
         | none => existing.env.ANTHROPIC_MODEL) ∧
      (updates.name = none → merged.name = existing.name) ∧
      (updates.description = none → merged.description = existing.description) ∧
      (∀ d, updates.description = some d → merged.description = d) := by
  simp only [ConfigManager.updateConfig, hfind] at hres
  split at hres
  · simp at hres
  · split at hres
    · simp at hres
    · rename_i existingConfig heq
      simp only [if_true, Prod.mk.injEq, Option.some.injEq, true_and] at hres
      subst hres
      have hlt : index < config.providers.length := by
        by_contra hge
        push_neg at hge
        rw [List.getElem?_eq_none hge] at heq
        cases heq
      refine ⟨existingConfig, _, heq, List.getElem?_set_eq_of_lt _ hlt,
              fun j hj => ?_, rfl, mergeEnvKey_match _ _ _, mergeEnvKey_match _ _ _,
              mergeEnvKey_match _ _ _, fun h => ?_, fun h => ?_, fun d h => ?_⟩
      · rw [List.getElem?_set, if_neg (fun hh => hj hh.symm)]
      · show ConfigManager.strOr updates.name existingConfig.name = existingConfig.name
        rw [h]
        rfl
      · show updates.description.getD existingConfig.description =
          existingConfig.description
        rw [h]
        rfl
      · show updates.description.getD existingConfig.description = d
        rw [h]
        rfl

/-- Witness for C3: clearing the base URL of "x" via a patch whose env
contains only `ANTHROPIC_BASE_URL` (present as undefined) empties exactly
that key and keeps the stored token and model. -/
theorem c3_witness :
    ∃ existing merged : ConfigItemV2,
      xProfileDoc.providers[0]? = some existing ∧
      clearedDoc.providers[0]? = some merged ∧
      (∀ j : Nat, j ≠ 0 → clearedDoc.providers[j]? = xProfileDoc.providers[j]?) ∧
      clearedDoc.currentIndex = xProfileDoc.currentIndex ∧
      merged.env.ANTHROPIC_BASE_URL = none ∧
      merged.env.ANTHROPIC_AUTH_TOKEN = existing.env.ANTHROPIC_AUTH_TOKEN ∧
      merged.env.ANTHROPIC_MODEL = existing.env.ANTHROPIC_MODEL ∧
      (clearBaseUrlPatch.name = none → merged.name = existing.name) ∧
      (clearBaseUrlPatch.description = none → merged.description = existing.description) ∧
      (∀ d, clearBaseUrlPatch.description = some d → merged.description = d) :=
  c3_updateConfig_three_state xProfileDoc "x" clearBaseUrlPatch 0 clearedDoc rfl rfl

/-- C9: with a failing file write, no mutating operation claims success —
the four boolean operations report `false` (their `try`/`catch` turns the
thrown save error into a failure result), `switchToIndex` never returns a
profile and throws whenever the index was valid enough to reach the save,
and `forceMigration` only succeeds when nothing had to be written. -/
theorem c9_write_failure_no_success (config : ConfigFileV2)
    (params : ConfigManager.AddConfigParams) (name : String)
    (updates : ConfigManager.ConfigItemPatch) (index : Int) (fs : FileData) :
    (ConfigManager.addConfig config params false).1 = false ∧
    (ConfigManager.deleteConfig config name false).1 = false ∧
    (ConfigManager.updateConfig config name updates false).1 = false ∧
    (ConfigManager.removeConfigByIndex config index false).1 = false ∧
    (∀ item, ConfigManager.switchToIndex config index false ≠ .ok (some item)) ∧
    (0 ≤ index → index < (config.providers.length : Int) →
      ConfigManager.switchToIndex config index false =
        .error "Failed to save configuration file") ∧
    (∀ r fs', ConfigManager.forceMigration fs false = .ok (r, fs') →
      r.migrated = false) := by
  refine ⟨?_, ?_, ?_, ?_, ?_, ?_, ?_⟩
  · unfold ConfigManager.addConfig
    repeat' split
    all_goals first | rfl | simp_all
  · unfold ConfigManager.deleteConfig
    repeat' split
    all_goals first | rfl | simp_all
  · unfold ConfigManager.updateConfig
    repeat' split
    all_goals first | rfl | simp_all
  · unfold ConfigManager.removeConfigByIndex
    repeat' split
    all_goals first | rfl | simp_all
  · intro item
    unfold ConfigManager.switchToIndex
    split
    · simp
    · simp
  · intro h0 hlt
    unfold ConfigManager.switchToIndex
    rw [if_neg (by omega)]
    rfl
  · intro r fs' h
    cases fs with
    | absent => simp [ConfigManager.forceMigration] at h
    | unparseable => simp [ConfigManager.forceMigration] at h
    | json raw =>
        simp only [ConfigManager.forceMigration] at h
        cases h1 : Js.isConfigFileV2 raw with
        | none => rw [h1] at h; cases h
        | some b =>
            cases b with
            | true =>
                rw [h1] at h
                injection h with hp
                cases hp
                rfl
            | false =>
                rw [h1] at h
                cases h2 : Js.migrateV1ToV2 raw with
                | none => rw [h2] at h; cases h
                | some m => rw [h2] at h; simp at h

/-- Witness for C9 on the two-profile document: a failing write makes
`addConfig` report failure and `switchToIndex 0` throw. -/
theorem c9_witness :
    (ConfigManager.addConfig twoProfileDoc (.v1 "n" "" "t" none) false).1 = false ∧
    ConfigManager.switchToIndex twoProfileDoc 0 false =
      .error "Failed to save configuration file" :=
  ⟨(c9_write_failure_no_success twoProfileDoc (.v1 "n" "" "t" none) "n"
      ⟨none, none, none⟩ 0 .absent).1,
   (c9_write_failure_no_success twoProfileDoc (.v1 "n" "" "t" none) "n"
      ⟨none, none, none⟩ 0 .absent).2.2.2.2.2.1 (by decide) (by decide)⟩

/-- C10: the only branch of `loadConfig` that touches the file is the one
where migration was needed and succeeded (and the write itself succeeds) —
a missing file, unparseable contents, and any v2-tagged document (valid or
not) leave the disk exactly as it was; the read-only operations perform
one `loadConfig` and no save, so they inherit this frame property. -/
theorem c10_load_no_write_on_fallback :
    (∀ w, (ConfigManager.loadConfig .absent w).2 = .absent) ∧
    (∀ w, (ConfigManager.loadConfig .unparseable w).2 = .unparseable) ∧
    (∀ raw w, Js.isConfigFileV2 raw = some true →
      (ConfigManager.loadConfig (.json raw) w).2 = .json raw) ∧
    (∀ fs w, (ConfigManager.loadConfig fs w).2 ≠ fs →
      ∃ raw migrated, fs = .json raw ∧ Js.isConfigFileV2 raw = some false ∧
        Js.migrateV1ToV2 raw = some migrated ∧ w = true ∧
        (ConfigManager.loadConfig fs w).2 = .json migrated) ∧
    (∀ fs w, ConfigManager.getCurrentConfigFileEffect fs w =
      (ConfigManager.loadConfig fs w).2) ∧
    (∀ fs w, ConfigManager.getAllConfigsFileEffect fs w =
      (ConfigManager.loadConfig fs w).2) ∧
    (∀ fs w, ConfigManager.getConfigFileEffect fs w =
      (ConfigManager.loadConfig fs w).2) ∧
    (∀ fs w, ConfigManager.hasConfigFileEffect fs w =
      (ConfigManager.loadConfig fs w).2) := by
  refine ⟨fun w => rfl, fun w => rfl, fun raw w h => ?_, fun fs w hne => ?_,
          fun fs w => rfl, fun fs w => rfl, fun fs w => rfl, fun fs w => rfl⟩
  · simp only [ConfigManager.loadConfig, h]
    split <;> rfl
  · cases fs with
    | absent => exact absurd rfl hne
    | unparseable => exact absurd rfl hne
    | json raw =>
        simp only [ConfigManager.loadConfig] at hne ⊢
        cases h1 : Js.isConfigFileV2 raw with
        | none => simp only [h1] at hne; exact absurd rfl hne
        | some b =>
            cases b with
            | true =>
                simp only [h1] at hne
                refine absurd ?_ hne
                split <;> rfl
            | false =>
                simp only [h1] at hne ⊢
                cases h2 : Js.migrateV1ToV2 raw with
                | none => simp only [h2] at hne; exact absurd rfl hne
                | some m =>
                    simp only [h2] at hne ⊢
                    cases w with
                    | false => exact absurd rfl hne
                    | true => exact ⟨raw, m, rfl, h1, h2, rfl, rfl⟩

/-- Witness for C10: no write happens for a missing file nor for a stored
(v2-tagged) default document. -/
theorem c10_witness :
    (ConfigManager.loadConfig .absent true).2 = .absent ∧
    (ConfigManager.loadConfig (.json ConfigManager.defaultConfigJson) true).2 =
      .json ConfigManager.defaultConfigJson :=
  ⟨c10_load_no_write_on_fallback.1 true,
   c10_load_no_write_on_fallback.2.2.1 ConfigManager.defaultConfigJson true rfl⟩

/-- The truthy-string check holds exactly for a present non-empty string. -/
theorem isTruthyStringVal_eq_true (v : Option JsonValue) :
    Js.isTruthyStringVal v = true ↔ ∃ s, v = some (.str s) ∧ s ≠ "" := by
  cases v with
  | none => simp [Js.isTruthyStringVal]
  | some x => cases x <;> simp [Js.isTruthyStringVal]

/-- The string check holds exactly for a present string. -/
theorem isStringVal_eq_true (v : Option JsonValue) :
    Js.isStringVal v = true ↔ ∃ s, v = some (.str s) := by
  cases v with
  | none => simp [Js.isStringVal]
  | some x => cases x <;> simp [Js.isStringVal]

/-- The optional-string check holds exactly when the value, if present,
is a string. -/
theorem isOptionalStringVal_eq_true (v : Option JsonValue) :
    Js.isOptionalStringVal v = true ↔ StringIfPresent v := by
  cases v with
  | none => simp [Js.isOptionalStringVal, StringIfPresent]
  | some x => cases x <;> simp [Js.isOptionalStringVal, StringIfPresent]

/-- The env-container check holds exactly for a JSON object whose three
recognized keys are strings when present, or an array. -/
theorem validateEnvContainer_eq_true (v : Option JsonValue) :
    Js.validateEnvContainer v = true ↔
      ((∃ envFields, v = some (.obj envFields) ∧
          StringIfPresent (jlookup envFields "ANTHROPIC_BASE_URL") ∧
          StringIfPresent (jlookup envFields "ANTHROPIC_AUTH_TOKEN") ∧
          StringIfPresent (jlookup envFields "ANTHROPIC_MODEL")) ∨
       (∃ elems, v = some (.arr elems))) := by
  cases v with
  | none => simp [Js.validateEnvContainer]
  | some x =>
      cases x <;>
        simp [Js.validateEnvContainer, isOptionalStringVal_eq_true, and_assoc]

/-- One provider passes the validator exactly when it is well-shaped in
the sense of `ProviderOk`. -/
theorem validateProvider_eq_true (p : JsonValue) :
    Js.validateProvider p = some true ↔ ProviderOk p := by
  cases p with
  | null => simp [Js.validateProvider, ProviderOk]
  | bool b => simp [Js.validateProvider, ProviderOk, jget,
      isTruthyStringVal_eq_true]
  | num q => simp [Js.validateProvider, ProviderOk, jget,
      isTruthyStringVal_eq_true]
  | str s => simp [Js.validateProvider, ProviderOk, jget,
      isTruthyStringVal_eq_true]
  | arr xs => simp [Js.validateProvider, ProviderOk, jget,
      isTruthyStringVal_eq_true]
  | obj fields =>
      simp [Js.validateProvider, ProviderOk, jget, Bool.and_eq_true,
        isTruthyStringVal_eq_true, isStringVal_eq_true,
        validateEnvContainer_eq_true, and_assoc]

/-- The provider loop returns `some true` exactly when every provider is
well-shaped. -/
theorem validateProviders_eq_true (ps : List JsonValue) :
    Js.validateProviders ps = some true ↔ ∀ p ∈ ps, ProviderOk p := by
  induction ps with
  | nil => simp [Js.validateProviders]
  | cons p rest ih =>
      simp only [Js.validateProviders]
      cases h : Js.validateProvider p with
      | none =>
          constructor
          · intro hfalse
            cases hfalse
          · intro hall
            have := (validateProvider_eq_true p).mpr (hall p (by simp))
            rw [h] at this
            cases this
      | some b =>
          cases b with
          | false =>
              constructor
              · intro hfalse
                cases hfalse
              · intro hall
                have := (validateProvider_eq_true p).mpr (hall p (by simp))
                rw [h] at this
                cases this
          | true =>
              rw [ih]
              constructor
              · intro hrest q hq
                rcases List.mem_cons.mp hq with rfl | hq'
                · exact (validateProvider_eq_true q).mp h
                · exact hrest q hq'
              · intro hall q hq
                exact hall q (List.mem_cons_of_mem _ hq)

/-- C7 amended: `validateV2Config` returns true exactly for a JSON object
tagged "v2" whose providers form a non-empty array, whose `currentIndex`
is a NUMBER (not necessarily an integer) within `[0, providers.length)`,
and whose providers are all well-shaped (`ProviderOk`); on every other
input — including all exception paths — it returns false. -/
theorem c7_validateV2Config_characterization (config : JsonValue) :
    Js.validateV2Config config = true ↔ ValidV2Shape config := by
  constructor
  · intro h
    cases config with
    | null => simp [Js.validateV2Config] at h
    | bool b => simp [Js.validateV2Config] at h
    | num q => simp [Js.validateV2Config] at h
    | str s => simp [Js.validateV2Config] at h
    | arr xs => simp [Js.validateV2Config] at h
    | obj fields =>
        simp only [Js.validateV2Config] at h
        cases hv : jlookup fields "version" with
        | none => exact absurd h (by simp [hv])
        | some v =>
            cases v with
            | null => exact absurd h (by simp [hv])
            | bool b => exact absurd h (by simp [hv])
            | num qq => exact absurd h (by simp [hv])
            | arr l => exact absurd h (by simp [hv])
            | obj o => exact absurd h (by simp [hv])
            | str s =>
                simp only [hv] at h
                by_cases hs : s = "v2"
                · subst hs
                  rw [if_pos (show (("v2" : String) == "v2") = true from rfl)] at h
                  cases hp : jlookup fields "providers" with
                  | none => exact absurd h (by simp [hp])
                  | some pv =>
                      cases pv with
                      | null => exact absurd h (by simp [hp])
                      | bool b => exact absurd h (by simp [hp])
                      | num qq => exact absurd h (by simp [hp])
                      | str t => exact absurd h (by simp [hp])
                      | obj o => exact absurd h (by simp [hp])
                      | arr ps =>
                          simp only [hp] at h
                          by_cases hemp : ps.isEmpty = true
                          · rw [if_pos hemp] at h
                            exact absurd h (by simp)
                          · rw [if_neg hemp] at h
                            cases hci : jlookup fields "currentIndex" with
                            | none => exact absurd h (by simp [hci])
                            | some cv =>
                                cases cv with
                                | null => exact absurd h (by simp [hci])
                                | bool b => exact absurd h (by simp [hci])
                                | str t => exact absurd h (by simp [hci])
                                | arr l => exact absurd h (by simp [hci])
                                | obj o => exact absurd h (by simp [hci])
                                | num q =>
                                    simp only [hci] at h
                                    by_cases hq : q < 0 ∨ q ≥ (ps.length : Rat)
                                    · rw [if_pos hq] at h
                                      exact absurd h (by simp)
                                    · rw [if_neg hq] at h
                                      push_neg at hq
                                      cases hvp : Js.validateProviders ps with
                                      | none => exact absurd h (by simp [hvp])
                                      | some b =>
                                          simp only [hvp] at h
                                          refine ⟨fields, ps, q, rfl, hv, hp,
                                            fun hnil => hemp (by simp [hnil]),
                                            hci, hq.1, hq.2, ?_⟩
                                          rw [h] at hvp
                                          exact (validateProviders_eq_true ps).mp hvp
                · rw [if_neg (by simpa using hs)] at h
                  exact absurd h (by simp)
  · rintro ⟨fields, ps, q, rfl, hv, hp, hne, hci, h0, hlt, hall⟩
    have hemp : ps.isEmpty = false := by
      cases ps with
      | nil => exact absurd rfl hne
      | cons a l => rfl
    have hq : ¬(q < 0 ∨ q ≥ (ps.length : Rat)) := by
      rintro (hc | hc)
      · exact absurd hc (not_lt.mpr h0)
      · exact absurd hc (not_le.mpr hlt)
    simp only [Js.validateV2Config, hv, hp, hci, hemp, beq_self_eq_true, if_true,
      Bool.false_eq_true, if_false]
    rw [if_neg hq, (validateProviders_eq_true ps).mpr hall]

/-- C7 counterexample: the claim requires `currentIndex` to be an integer,
but the source only checks `typeof === 'number'`: the v2 document with
`currentIndex: 1/2` (denominator 2, so not an integer) passes validation. -/
theorem c7_fractional_index_accepted :
    Js.validateV2Config halfIndexDoc = true ∧
    jget halfIndexDoc "currentIndex" = some (.num (mkRat 1 2)) ∧
    (mkRat 1 2).den ≠ 1 :=
  ⟨rfl, rfl, by decide⟩

/-- Witness for C7 amended at a concrete valid document (the serialized
default document) and a concrete invalid one (`providers` empty). -/
theorem c7_witness :
    ValidV2Shape ConfigManager.defaultConfigJson ∧
    Js.validateV2Config (.obj [("version", .str "v2"), ("providers", .arr []),
        ("currentIndex", .num 0)]) = false := by
  constructor
  · exact (c7_validateV2Config_characterization ConfigManager.defaultConfigJson).mp rfl
  · have h := c7_validateV2Config_characterization
      (.obj [("version", .str "v2"), ("providers", .arr []), ("currentIndex", .num 0)])
    cases hb : Js.validateV2Config (.obj [("version", .str "v2"),
        ("providers", .arr []), ("currentIndex", .num 0)]) with
    | false => rfl
    | true =>
        rcases h.mp hb with ⟨fields, ps, q, heq, -, hp, hne, -⟩
        cases heq
        cases hp
        exact absurd rfl hne

end Auo
